import Mathlib

/-!
# Verification of the mp-pico-ra-calculator core (`src/pico/main.py`)

A shallow embedding of the program's data model and operations:

* the calendar / drift-compensation arithmetic (`leap_year`,
  `days_since_calibration`, the corrected-RA computation of
  `RaDisplay.show_ra`),
* the crash-consistent FRAM config store (`RaFRAM`),
* the single-slot command queue (`CommandQueue`),
* the UI state machine (`StateMachine`).

Python `assert` statements and statements that raise runtime errors are
modelled by `Option`: a function returns `none` exactly when the Python
code would raise.  Machine integers are unbounded in MicroPython, so
values are modelled as `Nat` (all quantities in this program are
non-negative; the few places where Python performs a decrement that can
go below zero before being tested use `Int`).
-/

set_option autoImplicit false

namespace RaCalc

/-! ## Calendar arithmetic (module-level code of `main.py`) -/

/-- An RA value: hours and minutes (`RA = namedtuple('RA', ('h', 'm'))`). -/
structure RA where
  h : Nat
  m : Nat
deriving DecidableEq, Repr

/-- A calibration date: day, month
(`CalibrationDate = namedtuple('CalibrationDate', ('d', 'm'))`). -/
structure CalibrationDate where
  d : Nat
  m : Nat
deriving DecidableEq, Repr

/-- A real-time clock value
(`RealTimeClock = namedtuple(..., ('year','month','dom','dow','h','m','s'))`). -/
structure RealTimeClock where
  year : Nat
  month : Nat
  dom : Nat
  dow : Nat
  h : Nat
  m : Nat
  s : Nat
deriving DecidableEq, Repr

/-- Source `DEFAULT_RA_TARGET: RA = RA(5, 16)` -/
def DEFAULT_RA_TARGET : RA := ⟨5, 16⟩

/-- Source `DEFAULT_CALIBRATION_DATE: CalibrationDate = CalibrationDate(3, 1)` -/
def DEFAULT_CALIBRATION_DATE : CalibrationDate := ⟨3, 1⟩

/-- Source `_DAY_MINUTES: int = 1_440` -/
def DAY_MINUTES : Nat := 1440

/-- Source `_MIN_BRIGHTNESS: int = 1` -/
def MIN_BRIGHTNESS : Nat := 1

/-- Source `_MAX_BRIGHTNESS: int = 20` -/
def MAX_BRIGHTNESS : Nat := 20

/-- Source `_MONTH_NAME`, the list of 2-letter month names (index 0 unused). -/
def MONTH_NAME : List String :=
  ["xx", "Ja", "Fe", "Mc", "Ap", "Ma", "Jn", "Ju", "Au", "Se", "Oc", "No", "De"]

/-- Source `_CUMULATIVE_DAYS`: cumulative days by month; the `Bool` index is
"is leap year".  `_CUMULATIVE_DAYS[leap][i]` becomes
`(CUMULATIVE_DAYS leap).getD i 0`; every use in the source keeps the
index in range `0..12`. -/
def CUMULATIVE_DAYS (leap : Bool) : List Nat :=
  if leap then
    [0, 31, 60, 91, 121, 152, 182, 213, 244, 274, 305, 335, 366]
  else
    [0, 31, 59, 90, 120, 151, 181, 212, 243, 273, 304, 334, 365]

/-- Source `_DAYS`: maximum days in a month (ignoring leap years), index 0 invalid. -/
def DAYS : List Nat := [0, 31, 28, 31, 30, 31, 30, 31, 31, 30, 31, 30, 31]

/-- Source `leap_year(year)`: `year % 4 == 0 and year % 100 != 0 or year % 400 == 0`. -/
def leap_year (year : Nat) : Bool :=
  year % 4 == 0 && year % 100 != 0 || year % 400 == 0

/-- Source `(CUMULATIVE_DAYS L)[i]` as a function: cumulative day count at the
start of month `i + 1`. -/
def cum (L : Bool) (i : Nat) : Nat := (CUMULATIVE_DAYS L).getD i 0

/-- The body of `days_since_calibration` with the two leap-year queries
(`leap_year(now_year)` and `leap_year(now_year - 1)`) abstracted as the
Booleans `L` and `LP`; `days_since_calibration` below instantiates them.
The Python locals `now_offset` (that is `now_day + cum L (now_month - 1)`,
plus `cum LP 12` in the calibration-was-last-year branch) and `c_offset`
are inlined.  The trailing `assert now_offset > c_offset` is modelled by
returning `none` when it fails. -/
def days_calc (L LP : Bool) (c_day c_month now_day now_month : Nat) :
    Option Nat :=
  -- Is it calibration day?
  if c_month = now_month ∧ c_day = now_day then some 0
  -- Does it look like now is before the calibration date?
  else if now_month < c_month ∨ (now_month = c_month ∧ now_day < c_day) then
    -- Calibration year must have been last year: its offset uses last
    -- year's table, and all of last year's days are added to now's offset.
    if now_day + cum L (now_month - 1) + cum LP 12 >
        c_day + cum LP (c_month - 1) then
      some (now_day + cum L (now_month - 1) + cum LP 12 -
        (c_day + cum LP (c_month - 1)))
    else none
  else
    -- Calibration is the current year.
    if now_day + cum L (now_month - 1) >
        c_day + (if c_month > 1 then cum L (c_month - 1) else 0) then
      some (now_day + cum L (now_month - 1) -
        (c_day + (if c_month > 1 then cum L (c_month - 1) else 0)))
    else none

/-- Source `days_since_calibration(c_day, c_month, now_day, now_month, now_year)`:
number of days since calibration (0 on the calibration day itself). -/
def days_since_calibration (c_day c_month now_day now_month now_year : Nat) :
    Option Nat :=
  days_calc (leap_year now_year) (leap_year (now_year - 1))
    c_day c_month now_day now_month

/-- The number of days of month `m` in a year whose leap status is `L`:
the fixed `_DAYS` table, plus one for February in a leap year. -/
def monthMax (L : Bool) (m : Nat) : Nat :=
  DAYS.getD m 0 + (if m == 2 && L then 1 else 0)

/-- The day-of-year offset the source computes:
`day + _CUMULATIVE_DAYS[leap][month - 1]`. -/
def doy (L : Bool) (d m : Nat) : Nat := d + cum L (m - 1)

/-- A valid stored calibration day/month: the month is 1..12 and the day
is within `_DAYS` for that month (February fixed at 28, as stored dates
are clamped against `_DAYS`). -/
def ValidCalDate (d m : Nat) : Prop :=
  1 ≤ m ∧ m ≤ 12 ∧ 1 ≤ d ∧ d ≤ DAYS.getD m 0

/-- A valid current date as provided by the RTC for a year whose
leap-year status is `L`: Feb 29 exists only in leap years. -/
def ValidNowDate (L : Bool) (d m : Nat) : Prop :=
  1 ≤ m ∧ m ≤ 12 ∧ 1 ≤ d ∧ d ≤ monthMax L m

instance (d m : Nat) : Decidable (ValidCalDate d m) := by
  unfold ValidCalDate; infer_instance

instance (L : Bool) (d m : Nat) : Decidable (ValidNowDate L d m) := by
  unfold ValidNowDate; infer_instance

/-! ### Facts about the cumulative-day tables

These are finite table facts, settled by `decide` over at most 13 × 13
cases each. -/

theorem cum_zero (L : Bool) : cum L 0 = 0 := by cases L <;> rfl

theorem cum_last (L : Bool) : 365 ≤ cum L 12 ∧ cum L 12 ≤ 366 := by
  cases L <;> decide

theorem cum_last_of (L : Bool) : cum L 12 = 365 + (if L then 1 else 0) := by
  cases L <;> decide

/-- Adding a month's length to the cumulative count up to its start
gives the cumulative count up to its end. -/
theorem cum_step : ∀ L : Bool, ∀ m, m ≤ 12 → 1 ≤ m →
    cum L (m - 1) + monthMax L m = cum L m := by decide

/-- The cumulative tables are monotone. -/
theorem cum_mono : ∀ L : Bool, ∀ j, j ≤ 12 → ∀ i, i ≤ j →
    cum L i ≤ cum L j := by decide

/-- The leap table dominates the non-leap table, by at most one day. -/
theorem cum_leap_compare : ∀ i, i ≤ 12 →
    cum false i ≤ cum true i ∧ cum true i ≤ cum false i + 1 := by decide

theorem days_le_monthMax (L : Bool) (m : Nat) :
    DAYS.getD m 0 ≤ monthMax L m :=
  Nat.le_add_right _ _

theorem monthMax_le_monthMax (m : Nat) :
    monthMax false m ≤ monthMax true m := by
  unfold monthMax
  simp only [Bool.and_false, Bool.and_true, if_neg Bool.false_ne_true]
  split <;> omega

/-! ### Day-of-year lemmas -/

theorem doy_le_cum (L : Bool) (d m : Nat) (h1 : 1 ≤ m) (h2 : m ≤ 12)
    (hd : d ≤ monthMax L m) : doy L d m ≤ cum L m := by
  have := cum_step L m h2 h1
  unfold doy
  omega

theorem doy_le_year (L : Bool) (d m : Nat) (h1 : 1 ≤ m) (h2 : m ≤ 12)
    (hd : d ≤ monthMax L m) : doy L d m ≤ cum L 12 :=
  Nat.le_trans (doy_le_cum L d m h1 h2 hd) (cum_mono L 12 (Nat.le_refl 12) m h2)

theorem doy_pos (L : Bool) (d m : Nat) (hd : 1 ≤ d) : 1 ≤ doy L d m := by
  unfold doy
  omega

/-- Day-of-year is strictly monotone in lexicographic (month, day) order,
within one table. -/
theorem doy_mono (L : Bool) (d m d' m' : Nat) (h1 : 1 ≤ m) (h2' : m' ≤ 12)
    (hd : d ≤ monthMax L m) (hd' : 1 ≤ d')
    (hlex : m < m' ∨ (m = m' ∧ d < d')) : doy L d m < doy L d' m' := by
  rcases hlex with hm | ⟨hm, hdlt⟩
  · have h2 : m ≤ 12 := by omega
    have hle : doy L d m ≤ cum L m := doy_le_cum L d m h1 h2 hd
    have hmm : cum L m ≤ cum L (m' - 1) :=
      cum_mono L (m' - 1) (by omega) m (by omega)
    simp only [doy] at hle ⊢
    omega
  · subst hm
    simp only [doy]
    omega

/-- Cross-table comparison: a date strictly earlier in (month, day) order,
measured with the leap table, is never later in the year than the other
date measured with the non-leap table. -/
theorem doy_cross (d m d' m' : Nat) (h1 : 1 ≤ m) (h2 : m ≤ 12)
    (h2' : m' ≤ 12) (hd : d ≤ monthMax true m) (hd' : 1 ≤ d')
    (hlex : m < m' ∨ (m = m' ∧ d < d')) : doy true d m ≤ doy false d' m' := by
  rcases hlex with hm | ⟨hm, hdlt⟩
  · have hle : doy true d m ≤ cum true m := doy_le_cum true d m h1 h2 hd
    have hcmp := cum_leap_compare m h2
    have hmm : cum false m ≤ cum false (m' - 1) :=
      cum_mono false (m' - 1) (by omega) m (by omega)
    simp only [doy] at hle ⊢
    omega
  · subst hm
    have hcmp := cum_leap_compare (m - 1) (by omega)
    simp only [doy]
    omega

/-! ### Bounds for `days_calc` -/

/-- Shared workhorse: for every valid calibration date and valid current
date, `days_calc` succeeds (the internal `assert` holds) and the result
is at most 365; it is moreover at least 1 whenever the two day/month
pairs differ (and exactly 0 when they coincide, by the first branch). -/
theorem days_calc_bounds (L LP : Bool) (cd cm nd nm : Nat)
    (hc : ValidCalDate cd cm) (hn : ValidNowDate L nd nm) :
    ∃ r, days_calc L LP cd cm nd nm = some r ∧ r ≤ 365 ∧
      (¬(cm = nm ∧ cd = nd) → 1 ≤ r) := by
  obtain ⟨hcm1, hcm12, hcd1, hcdmax⟩ := hc
  obtain ⟨hnm1, hnm12, hnd1, hndmax⟩ := hn
  have hcdmax' : cd ≤ monthMax LP cm :=
    Nat.le_trans hcdmax (days_le_monthMax LP cm)
  have hcdmaxL : cd ≤ monthMax L cm :=
    Nat.le_trans hcdmax (days_le_monthMax L cm)
  unfold days_calc
  by_cases heq : cm = nm ∧ cd = nd
  · rw [if_pos heq]
    exact ⟨0, rfl, by omega, fun h => absurd heq h⟩
  · rw [if_neg heq]
    by_cases hbefore : nm < cm ∨ (nm = cm ∧ nd < cd)
    · rw [if_pos hbefore]
      -- Calibration assumed to be last year.
      have hnlb : 1 ≤ doy L nd nm := doy_pos L nd nm hnd1
      cases LP
      · -- Previous year not leap: `doy L nd nm ≤ doy false cd cm`.
        have hcub : doy false cd cm ≤ cum false 12 :=
          doy_le_year false cd cm hcm1 hcm12 hcdmax'
        have hup : doy L nd nm ≤ doy false cd cm := by
          cases L
          · exact Nat.le_of_lt (doy_mono false nd nm cd cm hnm1 hcm12
              hndmax hcd1 hbefore)
          · exact doy_cross nd nm cd cm hnm1 hnm12 hcm12 hndmax hcd1 hbefore
        have h365 : cum false 12 = 365 := by decide
        simp only [doy] at hnlb hcub hup
        rw [if_pos (by omega)]
        exact ⟨_, rfl, by omega, fun _ => by omega⟩
      · -- Previous year leap: `doy L nd nm < doy true cd cm`.
        have hcub : doy true cd cm ≤ cum true 12 :=
          doy_le_year true cd cm hcm1 hcm12 hcdmax'
        have hup : doy L nd nm < doy true cd cm := by
          cases L
          · have hndT : nd ≤ monthMax true nm :=
              Nat.le_trans hndmax (monthMax_le_monthMax nm)
            have hlt : doy true nd nm < doy true cd cm :=
              doy_mono true nd nm cd cm hnm1 hcm12 hndT hcd1 hbefore
            have hcmpn := cum_leap_compare (nm - 1) (by omega)
            simp only [doy] at hlt ⊢
            omega
          · exact doy_mono true nd nm cd cm hnm1 hcm12 hndmax hcd1 hbefore
        have h366 : cum true 12 = 366 := by decide
        simp only [doy] at hnlb hcub hup
        rw [if_pos (by omega)]
        exact ⟨_, rfl, by omega, fun _ => by omega⟩
    · rw [if_neg hbefore]
      -- Calibration in the current year.
      have hlex : cm < nm ∨ (cm = nm ∧ cd < nd) := by
        rcases Nat.lt_trichotomy cm nm with h | h | h
        · exact Or.inl h
        · refine Or.inr ⟨h, ?_⟩
          rcases Nat.lt_trichotomy cd nd with h' | h' | h'
          · exact h'
          · exact absurd ⟨h, h'⟩ heq
          · exact absurd (Or.inr ⟨h.symm, h'⟩) hbefore
        · exact absurd (Or.inl h) hbefore
      have hif : (if cm > 1 then cum L (cm - 1) else 0) = cum L (cm - 1) := by
        by_cases h1 : cm > 1
        · rw [if_pos h1]
        · have hcm : cm = 1 := by omega
          rw [if_neg h1, hcm, cum_zero]
      rw [hif]
      have hlt : doy L cd cm < doy L nd nm :=
        doy_mono L cd cm nd nm hcm1 hnm12 hcdmaxL hnd1 hlex
      have hnub : doy L nd nm ≤ cum L 12 :=
        doy_le_year L nd nm hnm1 hnm12 hndmax
      have hclb : 1 ≤ doy L cd cm := doy_pos L cd cm hcd1
      have hlast : cum L 12 ≤ 366 := (cum_last L).2
      simp only [doy] at hlt hnub hclb
      rw [if_pos (by omega)]
      exact ⟨_, rfl, by omega, fun _ => by omega⟩

/-! ## The corrected-RA computation (`RaDisplay.show_ra`) -/

/-- The corrected-RA value computed by `RaDisplay.show_ra` before it is
formatted for the display.  The source formats the RTC hours/minutes as
the string `f'{h:02d}:{m:02d}'` and parses it back with `int`; for the
RTC's 0..23 / 0..59 ranges that round-trips, so `clock_hours` and the
minutes are taken directly from the RTC value.  The `assert` inside
`days_since_calibration` is propagated as `none`
(`assert elapsed_days >= 0` always holds on `Nat`). -/
def corrected_ra (ra_target : RA) (calibration_date : CalibrationDate)
    (rtc : RealTimeClock) : Option RA :=
  match days_since_calibration calibration_date.d calibration_date.m
      rtc.dom rtc.month rtc.year with
  | none => none
  | some elapsed_days =>
    -- First, we add the current time to the target RA.
    let target_ra_minutes := ra_target.h * 60 + ra_target.m
    let clock_hours := rtc.h
    let clock_minutes := clock_hours * 60 + rtc.m
    -- Then, we add 1 minute for every 6 hours on the clock.
    let sub_day_offset := clock_hours / 6
    -- Then, add 4 minutes for each whole day since calibration
    -- (`elapsed_days - 1 if elapsed_days else 0`).
    let whole_days := if elapsed_days ≠ 0 then elapsed_days - 1 else 0
    let scope_ra_minutes :=
      target_ra_minutes + clock_minutes + sub_day_offset + 4 * whole_days
    -- Finally, wrap if the result amounts to more than 24 hours.
    let scope_ra_minutes :=
      if scope_ra_minutes ≥ DAY_MINUTES then scope_ra_minutes - DAY_MINUTES
      else scope_ra_minutes
    some ⟨scope_ra_minutes / 60, scope_ra_minutes % 60⟩

/-- C7: for every valid calibration day/month and valid current date
whose day/month pair differs, `days_since_calibration` succeeds (its
internal assertion holds) and returns a value in `1..365`. -/
theorem days_since_calibration_in_range
    (c_day c_month now_day now_month now_year : Nat)
    (hc : ValidCalDate c_day c_month)
    (hn : ValidNowDate (leap_year now_year) now_day now_month)
    (hy : 1 ≤ now_year)
    (hne : ¬(c_month = now_month ∧ c_day = now_day)) :
    ∃ r, days_since_calibration c_day c_month now_day now_month now_year
        = some r ∧ 1 ≤ r ∧ r ≤ 365 := by
  obtain ⟨r, hr, hub, hlb⟩ := days_calc_bounds (leap_year now_year)
    (leap_year (now_year - 1)) c_day c_month now_day now_month hc hn
  exact ⟨r, hr, hlb hne, hub⟩

/-- Witness for C7 at the year-boundary example of the spec:
calibration Dec 31, now Jan 1 of the following year. -/
theorem days_since_calibration_in_range_witness :
    ValidCalDate 31 12 ∧ ValidNowDate (leap_year 2023) 1 1 ∧
      1 ≤ 2023 ∧ ¬((12 : Nat) = 1 ∧ (31 : Nat) = 1) ∧
      ∃ r, days_since_calibration 31 12 1 1 2023 = some r ∧ 1 ≤ r ∧ r ≤ 365 :=
  ⟨by decide, by decide, by decide, by decide,
    days_since_calibration_in_range 31 12 1 1 2023
      (by decide) (by decide) (by decide) (by decide)⟩

/-- C1, counterexample: at the valid input target 23:59, calibration
Jan 3, current time 23:59 on Jan 3 (the calibration day, so zero elapsed
days), the accumulated minutes are 1439 + 1439 + 3 = 2881 ≥ 2880, and a
single subtraction of 1440 leaves 1441 minutes: the returned hour is 24,
outside 0..23. -/
theorem corrected_ra_hour_out_of_range :
    ValidCalDate 3 1 ∧ ValidNowDate (leap_year 2022) 3 1 ∧
      (23 : Nat) ≤ 23 ∧ (59 : Nat) ≤ 59 ∧
      corrected_ra ⟨23, 59⟩ ⟨3, 1⟩ ⟨2022, 1, 3, 1, 23, 59, 0⟩ =
        some ⟨24, 1⟩ ∧ ¬(24 : Nat) ≤ 23 := by
  refine ⟨by decide, by decide, by decide, by decide, ?_, by decide⟩
  decide

/-- C1, amended: for every valid input the corrected-RA computation
succeeds and returns minutes in 0..59, but the hour is only guaranteed
to lie in 0..48: the accumulated minutes can reach 2880 (two full days)
even with zero elapsed days, so the single conditional subtraction of
1440 is not sufficient to keep the hour within 0..23. -/
theorem corrected_ra_bounds (target : RA) (cal : CalibrationDate)
    (rtc : RealTimeClock)
    (hth : target.h ≤ 23) (htm : target.m ≤ 59)
    (hh : rtc.h ≤ 23) (hm : rtc.m ≤ 59)
    (hc : ValidCalDate cal.d cal.m)
    (hn : ValidNowDate (leap_year rtc.year) rtc.dom rtc.month) :
    ∃ ra, corrected_ra target cal rtc = some ra ∧ ra.h ≤ 48 ∧ ra.m ≤ 59 := by
  obtain ⟨r, hr, hub, _⟩ := days_calc_bounds (leap_year rtc.year)
    (leap_year (rtc.year - 1)) cal.d cal.m rtc.dom rtc.month hc hn
  have hds : days_since_calibration cal.d cal.m rtc.dom rtc.month rtc.year
      = some r := hr
  simp only [corrected_ra, hds, DAY_MINUTES]
  refine ⟨_, rfl, ?_, ?_⟩
  · show _ / 60 ≤ 48
    split <;> split <;> omega
  · show _ % 60 ≤ 59
    omega

/-- Witness for the amended C1 at a concrete valid input. -/
theorem corrected_ra_bounds_witness :
    ∃ ra, corrected_ra ⟨5, 16⟩ ⟨3, 1⟩ ⟨2022, 2, 7, 1, 14, 46, 25⟩ =
      some ra ∧ ra.h ≤ 48 ∧ ra.m ≤ 59 :=
  corrected_ra_bounds ⟨5, 16⟩ ⟨3, 1⟩ ⟨2022, 2, 7, 1, 14, 46, 25⟩
    (by decide) (by decide) (by decide) (by decide) (by decide) (by decide)

/-- C6: at midnight of the calibration day itself (elapsed days 0 and
time-of-day 00:00), the corrected RA equals the target unchanged. -/
theorem corrected_ra_at_calibration_midnight (target : RA)
    (cal : CalibrationDate) (rtc : RealTimeClock)
    (hth : target.h ≤ 23) (htm : target.m ≤ 59)
    (hh : rtc.h = 0) (hm : rtc.m = 0)
    (hd : rtc.dom = cal.d) (hmo : rtc.month = cal.m) :
    corrected_ra target cal rtc = some target := by
  obtain ⟨th, tm⟩ := target
  replace hth : th ≤ 23 := hth
  replace htm : tm ≤ 59 := htm
  have hds : days_since_calibration cal.d cal.m rtc.dom rtc.month rtc.year
      = some 0 := by
    unfold days_since_calibration days_calc
    rw [if_pos ⟨hmo.symm, hd.symm⟩]
  simp only [corrected_ra, hds, hh, hm, DAY_MINUTES]
  norm_num
  rw [if_neg (by omega)]
  constructor <;> omega

/-- Witness for C6 at a concrete input. -/
theorem corrected_ra_at_calibration_midnight_witness :
    corrected_ra ⟨5, 16⟩ ⟨3, 1⟩ ⟨2022, 1, 3, 1, 0, 0, 0⟩ = some ⟨5, 16⟩ :=
  corrected_ra_at_calibration_midnight ⟨5, 16⟩ ⟨3, 1⟩ ⟨2022, 1, 3, 1, 0, 0, 0⟩
    (by decide) (by decide) rfl rfl rfl rfl

/-! ## The FRAM config store (`BaseFRAM` and `RaFRAM`) -/

/-- Source `RaFRAM._INVALID`: the marker value meaning "cannot be trusted". -/
def INVALID : Nat := 0

/-- Source `RaFRAM._VALID`: the marker value meaning "can be trusted". -/
def VALID : Nat := 33

/-- Source `RaFRAM._OFFSET_BRIGHTNESS` -/
def OFFSET_BRIGHTNESS : Nat := 0

/-- Source `RaFRAM._OFFSET_RA_TARGET` -/
def OFFSET_RA_TARGET : Nat := 2

/-- Source `RaFRAM._OFFSET_CALIBRATION_DATE` -/
def OFFSET_CALIBRATION_DATE : Nat := 5

/-- Source `RaFRAM.DEFAULT_BRIGHTNESS = _MIN_BRIGHTNESS` -/
def DEFAULT_BRIGHTNESS : Nat := MIN_BRIGHTNESS

/-- The byte contents of the FRAM device, by offset. -/
def Fram : Type := Nat → Nat

/-- Source `BaseFRAM.write_byte(offset, byte_value)`.  A non-acknowledged bus
transaction is only logged by the source, and the layer treats the call
as completed, so the model always records the byte. -/
def write_byte (st : Fram) (offset byte_value : Nat) : Fram :=
  fun o => if o = offset then byte_value else st o

/-- Source `BaseFRAM.read_byte(offset)`. -/
def read_byte (st : Fram) (offset : Nat) : Nat := st offset

/-- The `Union[int, List[int]]` argument of `RaFRAM._write_value`. -/
inductive FramValue where
  | int (v : Nat)
  | list (vs : List Nat)

/-- The loop of `RaFRAM._write_value`: writes the given values at
consecutive offsets starting at `value_offset`. -/
def payload_writes_from (value_offset : Nat) : List Nat → List (Nat × Nat)
  | [] => []
  | v :: vs => (value_offset, v) :: payload_writes_from (value_offset + 1) vs

/-- The payload byte writes issued by `RaFRAM._write_value` between the
two marker writes: a single byte at `offset + 1` for an `int` value, or
the list written in order at consecutive offsets from `offset + 1`. -/
def payload_writes (offset : Nat) : FramValue → List (Nat × Nat)
  | .int v => [(offset + 1, v)]
  | .list vs => payload_writes_from (offset + 1) vs

/-- The complete `(offset, byte)` sequence of `write_byte` calls made by
`RaFRAM._write_value`: marker invalid, payload, marker valid. -/
def write_value_writes (offset : Nat) (value : FramValue) : List (Nat × Nat) :=
  (offset, INVALID) :: (payload_writes offset value ++ [(offset, VALID)])

/-- Replay a list of `(offset, byte)` writes against a FRAM state. -/
def apply_writes (st : Fram) (ws : List (Nat × Nat)) : Fram :=
  ws.foldl (fun s w => write_byte s w.1 w.2) st

theorem apply_writes_append (st : Fram) (ws ws' : List (Nat × Nat)) :
    apply_writes st (ws ++ ws') = apply_writes (apply_writes st ws) ws' := by
  simp [apply_writes, List.foldl_append]

/-- Replaying writes that never touch `offset` leaves `offset` alone. -/
theorem apply_writes_ne (st : Fram) (ws : List (Nat × Nat)) (offset : Nat)
    (h : ∀ w ∈ ws, w.1 ≠ offset) :
    apply_writes st ws offset = st offset := by
  induction ws generalizing st with
  | nil => rfl
  | cons w ws ih =>
    have hw : w.1 ≠ offset := h w (List.mem_cons_self w ws)
    have hrest := ih (write_byte st w.1 w.2)
      fun w' hw' => h w' (List.mem_cons_of_mem w hw')
    simp only [apply_writes, List.foldl_cons] at hrest ⊢
    rw [hrest]
    show (if offset = w.1 then w.2 else st offset) = st offset
    rw [if_neg fun h' => hw h'.symm]

/-- Every write produced by the payload loop lands at or after the start
offset and within the payload length. -/
theorem payload_writes_from_bounds (vs : List Nat) (vo : Nat) :
    ∀ w ∈ payload_writes_from vo vs, vo ≤ w.1 ∧ w.1 < vo + vs.length := by
  induction vs generalizing vo with
  | nil => simp [payload_writes_from]
  | cons v vs ih =>
    intro w hw
    simp only [payload_writes_from, List.mem_cons] at hw
    rcases hw with rfl | hw
    · simp
    · have := ih (vo + 1) w hw
      simp only [List.length_cons]
      omega

theorem payload_writes_from_chain (vs : List Nat) (vo : Nat) :
    List.Chain' (fun a b : Nat × Nat => a.1 < b.1)
      (payload_writes_from vo vs) := by
  induction vs generalizing vo with
  | nil => exact List.chain'_nil
  | cons v vs ih =>
    cases vs with
    | nil => simp [payload_writes_from]
    | cons v' vs' =>
      exact List.Chain'.cons (by simp [payload_writes_from]) (ih (vo + 1))

/-- Every payload write of `_write_value` targets an offset strictly
beyond the marker offset. -/
theorem payload_writes_beyond_marker (offset : Nat) (value : FramValue) :
    ∀ w ∈ payload_writes offset value, offset < w.1 := by
  cases value with
  | int v => simp [payload_writes]
  | list vs =>
    intro w hw
    have := payload_writes_from_bounds vs (offset + 1) w hw
    omega

/-- Payload writes are issued in strictly ascending offset order. -/
theorem payload_writes_ascending (offset : Nat) (value : FramValue) :
    List.Chain' (fun a b : Nat × Nat => a.1 < b.1)
      (payload_writes offset value) := by
  cases value with
  | int v => simp [payload_writes]
  | list vs => exact payload_writes_from_chain vs (offset + 1)

/-- C2: the byte-write sequence of `RaFRAM._write_value` is the invalid
marker first, then the payload bytes in ascending offset order (all
beyond the marker), then the valid marker; replaying the whole sequence
leaves the marker valid, and after any strict, non-empty prefix of the
sequence the marker byte reads as the invalid value — so the marker is
never valid while only part of the payload has been written. -/
theorem write_value_crash_consistent (offset : Nat) (value : FramValue) :
    write_value_writes offset value =
      (offset, INVALID) :: (payload_writes offset value ++ [(offset, VALID)]) ∧
    List.Chain' (fun a b : Nat × Nat => a.1 < b.1)
      (payload_writes offset value) ∧
    (∀ w ∈ payload_writes offset value, offset < w.1) ∧
    (∀ st : Fram,
      apply_writes st (write_value_writes offset value) offset = VALID) ∧
    (∀ (st : Fram) (k : Nat), 1 ≤ k →
      k < (write_value_writes offset value).length →
      apply_writes st ((write_value_writes offset value).take k) offset
        = INVALID) := by
  refine ⟨rfl, payload_writes_ascending offset value,
    payload_writes_beyond_marker offset value, ?_, ?_⟩
  · intro st
    show apply_writes st
      ((((offset, INVALID) :: payload_writes offset value) ++ [(offset, VALID)]))
        offset = VALID
    rw [apply_writes_append]
    simp [apply_writes, write_byte]
  · intro st k hk1 hklen
    obtain ⟨k', rfl⟩ : ∃ k', k = k' + 1 := ⟨k - 1, by omega⟩
    have hlen : (write_value_writes offset value).length
        = (payload_writes offset value).length + 2 := by
      simp [write_value_writes]
    have hk' : k' ≤ (payload_writes offset value).length := by omega
    show apply_writes st
      (((offset, INVALID) ::
        (payload_writes offset value ++ [(offset, VALID)])).take (k' + 1))
        offset = INVALID
    rw [List.take_succ_cons]
    have htake : (payload_writes offset value ++ [(offset, VALID)]).take k'
        = (payload_writes offset value).take k' := by
      rw [List.take_append_of_le_length hk']
    rw [htake]
    show apply_writes (write_byte st offset INVALID)
      ((payload_writes offset value).take k') offset = INVALID
    rw [apply_writes_ne]
    · simp [write_byte]
    · intro w hw
      have hmem : w ∈ payload_writes offset value := List.take_subset _ _ hw
      have := payload_writes_beyond_marker offset value w hmem
      omega

/-- Witness for C2 at the RA-target record layout (offset 2, payload
`[5, 16]`): after two of the five writes the marker is still invalid. -/
theorem write_value_crash_consistent_witness :
    1 ≤ 2 ∧ 2 < (write_value_writes 2 (.list [5, 16])).length ∧
      apply_writes (fun _ => 0)
        ((write_value_writes 2 (.list [5, 16])).take 2) 2 = INVALID :=
  ⟨by decide, by decide,
    (write_value_crash_consistent 2 (.list [5, 16])).2.2.2.2
      (fun _ => 0) 2 (by decide) (by decide)⟩

/-- The `RaFRAM` accessor: the underlying FRAM state plus the in-memory
cached values (`self._ra_target`, `self._brightness`,
`self._calibration_date`, all initially `None`). -/
structure RaFRAM where
  fram : Fram
  ra_target : Option RA
  brightness : Option Nat
  calibration_date : Option CalibrationDate

/-- Python truthiness of the cached `Optional[int]` fields
(`if self._brightness:`): `None` and `0` are falsy. -/
def truthyNat : Option Nat → Bool
  | none => false
  | some n => n != 0

/-- Source `RaFRAM._write_value`: marker invalid, payload bytes, marker valid
(the write sequence is `write_value_writes`, replayed onto the FRAM). -/
def RaFRAM.write_value (st : RaFRAM) (offset : Nat) (value : FramValue) :
    RaFRAM :=
  { st with fram := apply_writes st.fram (write_value_writes offset value) }

/-- Source `RaFRAM._read_value`: the byte after the marker. -/
def RaFRAM.read_value (st : RaFRAM) (offset : Nat) : Nat :=
  read_byte st.fram (offset + 1)

/-- Source `RaFRAM._read_values`: `length` bytes after the marker. -/
def RaFRAM.read_values (st : RaFRAM) (offset length : Nat) : List Nat :=
  (List.range length).map fun i => read_byte st.fram (offset + 1 + i)

/-- Source `RaFRAM._is_value_valid`: the marker byte equals `_VALID`. -/
def RaFRAM.is_value_valid (st : RaFRAM) (offset : Nat) : Bool :=
  read_byte st.fram offset == VALID

/-- Source `RaFRAM.write_brightness`: durable write first, cache update last. -/
def RaFRAM.write_brightness (st : RaFRAM) (brightness : Nat) : RaFRAM :=
  let st := st.write_value OFFSET_BRIGHTNESS (.int brightness)
  { st with brightness := some brightness }

/-- Source `RaFRAM.read_brightness`: cache, else valid stored value, else
write the default and return it. -/
def RaFRAM.read_brightness (st : RaFRAM) : Nat × RaFRAM :=
  if truthyNat st.brightness then (st.brightness.getD 0, st)
  else if st.is_value_valid OFFSET_BRIGHTNESS then
    let b := st.read_value OFFSET_BRIGHTNESS
    (b, { st with brightness := some b })
  else
    let st := st.write_brightness DEFAULT_BRIGHTNESS
    (st.brightness.getD 0, st)

/-- Source `RaFRAM.write_ra_target`. -/
def RaFRAM.write_ra_target (st : RaFRAM) (ra : RA) : RaFRAM :=
  let st := st.write_value OFFSET_RA_TARGET (.list [ra.h, ra.m])
  { st with ra_target := some ra }

/-- Source `RaFRAM.read_ra_target`.  The cached value is a namedtuple, which is
always truthy, so the cache check is a plain `Option` match. -/
def RaFRAM.read_ra_target (st : RaFRAM) : RA × RaFRAM :=
  match st.ra_target with
  | some v => (v, st)
  | none =>
    if st.is_value_valid OFFSET_RA_TARGET then
      let value := st.read_values OFFSET_RA_TARGET 2
      let ra : RA := ⟨value.getD 0 0, value.getD 1 0⟩
      (ra, { st with ra_target := some ra })
    else
      let st := st.write_ra_target DEFAULT_RA_TARGET
      (DEFAULT_RA_TARGET, st)

/-- Source `RaFRAM.write_calibration_date`. -/
def RaFRAM.write_calibration_date (st : RaFRAM) (c : CalibrationDate) :
    RaFRAM :=
  let st := st.write_value OFFSET_CALIBRATION_DATE (.list [c.d, c.m])
  { st with calibration_date := some c }

/-- Source `RaFRAM.read_calibration_date`. -/
def RaFRAM.read_calibration_date (st : RaFRAM) : CalibrationDate × RaFRAM :=
  match st.calibration_date with
  | some v => (v, st)
  | none =>
    if st.is_value_valid OFFSET_CALIBRATION_DATE then
      let value := st.read_values OFFSET_CALIBRATION_DATE 2
      let c : CalibrationDate := ⟨value.getD 0 0, value.getD 1 0⟩
      (c, { st with calibration_date := some c })
    else
      let st := st.write_calibration_date DEFAULT_CALIBRATION_DATE
      (DEFAULT_CALIBRATION_DATE, st)

/-- Source `RaFRAM.clear`: invalidate the three markers; payload bytes and the
in-memory cache are untouched. -/
def RaFRAM.clear (st : RaFRAM) : RaFRAM :=
  { st with fram :=
      write_byte (write_byte (write_byte st.fram OFFSET_BRIGHTNESS INVALID)
        OFFSET_RA_TARGET INVALID) OFFSET_CALIBRATION_DATE INVALID }

/-- A fresh `RaFRAM` over a zeroed device, caches empty
(as after `RaFRAM.__init__`). -/
def initialRaFRAM : RaFRAM :=
  { fram := fun _ => 0, ra_target := none, brightness := none,
    calibration_date := none }

/-- C4, counterexample: `clear()` does not touch the in-memory cache, so
after `write_brightness(7); clear()` the next `read_brightness()` serves
the cached 7 — not the default 1 — and re-persists nothing: the
brightness marker still reads as invalid afterwards. -/
theorem read_brightness_after_clear_cached :
    (((initialRaFRAM.write_brightness 7).clear).read_brightness).1 = 7 ∧
    ¬(((initialRaFRAM.write_brightness 7).clear).read_brightness).1
        = DEFAULT_BRIGHTNESS ∧
    ((((initialRaFRAM.write_brightness 7).clear).read_brightness).2).fram
        OFFSET_BRIGHTNESS = INVALID := by
  refine ⟨rfl, by decide, rfl⟩

/-- C4, amended: after `clear()` the next `read_brightness()` returns
the documented default (1) and re-persists it — provided the in-memory
brightness cache is empty (falsy), as on a fresh accessor.  The
re-persist makes the marker valid and stores the default byte, and the
cache is updated to the default. -/
theorem read_brightness_after_clear_uncached (st : RaFRAM)
    (hcache : truthyNat st.brightness = false) :
    ((st.clear).read_brightness).1 = DEFAULT_BRIGHTNESS ∧
    (((st.clear).read_brightness).2).fram OFFSET_BRIGHTNESS = VALID ∧
    (((st.clear).read_brightness).2).fram (OFFSET_BRIGHTNESS + 1)
        = DEFAULT_BRIGHTNESS ∧
    (((st.clear).read_brightness).2).brightness = some DEFAULT_BRIGHTNESS := by
  have hmarker : (st.clear).is_value_valid OFFSET_BRIGHTNESS = false := by
    simp [RaFRAM.clear, RaFRAM.is_value_valid, read_byte, write_byte,
      OFFSET_BRIGHTNESS, OFFSET_RA_TARGET, OFFSET_CALIBRATION_DATE,
      INVALID, VALID]
  have hcache' : truthyNat (st.clear).brightness = false := hcache
  simp only [RaFRAM.read_brightness, hcache', hmarker, Bool.false_eq_true,
    if_false]
  refine ⟨?_, ?_, ?_, ?_⟩ <;>
    simp [RaFRAM.write_brightness, RaFRAM.write_value, apply_writes,
      write_value_writes, payload_writes, write_byte, OFFSET_BRIGHTNESS,
      INVALID, VALID, DEFAULT_BRIGHTNESS, MIN_BRIGHTNESS]

/-- Witness for the amended C4 on the fresh accessor. -/
theorem read_brightness_after_clear_uncached_witness :
    truthyNat initialRaFRAM.brightness = false ∧
    ((initialRaFRAM.clear).read_brightness).1 = DEFAULT_BRIGHTNESS ∧
    (((initialRaFRAM.clear).read_brightness).2).fram OFFSET_BRIGHTNESS
        = VALID ∧
    (((initialRaFRAM.clear).read_brightness).2).fram (OFFSET_BRIGHTNESS + 1)
        = DEFAULT_BRIGHTNESS ∧
    (((initialRaFRAM.clear).read_brightness).2).brightness
        = some DEFAULT_BRIGHTNESS :=
  ⟨rfl, (read_brightness_after_clear_uncached initialRaFRAM rfl).1,
    (read_brightness_after_clear_uncached initialRaFRAM rfl).2.1,
    (read_brightness_after_clear_uncached initialRaFRAM rfl).2.2.1,
    (read_brightness_after_clear_uncached initialRaFRAM rfl).2.2.2⟩

/-! ## The command queue (`CommandQueue`) -/

/-- The single-slot mailbox: `self._queue_size = 1`, `self._queue = []`. -/
structure CommandQueue where
  queue_size : Nat
  queue : List Nat

/-- A freshly constructed `CommandQueue`. -/
def emptyCommandQueue : CommandQueue := ⟨1, []⟩

/-- Source `CommandQueue.members`. -/
def CommandQueue.members (q : CommandQueue) : Nat := q.queue.length

/-- Source `CommandQueue.put`: append only if there is room (silent drop). -/
def CommandQueue.put (q : CommandQueue) (command : Nat) : CommandQueue :=
  if q.queue.length < q.queue_size then { q with queue := q.queue ++ [command] }
  else q

/-- Source `CommandQueue.get`: pop and return the head, or `None`. -/
def CommandQueue.get (q : CommandQueue) : Option Nat × CommandQueue :=
  match q.queue with
  | [] => (none, q)
  | c :: rest => (some c, { q with queue := rest })

/-- C5: two `put`s on the empty queue keep exactly the first command;
`get` returns it leaving the queue empty, and a further `get` returns
`none`. -/
theorem command_queue_coalesces (c1 c2 : Nat) :
    ((emptyCommandQueue.put c1).put c2).queue = [c1] ∧
    ((emptyCommandQueue.put c1).put c2).get = (some c1, emptyCommandQueue) ∧
    ((((emptyCommandQueue.put c1).put c2).get).2).get
        = (none, emptyCommandQueue) :=
  ⟨rfl, rfl, rfl⟩

/-! ## The UI state machine (`StateMachine`)

Commands are the module-level integers `_CMD_*`; states are the class
constants `StateMachine.S_*`.  The display collaborator is a write-only
I/O shim (per the source it holds no decision logic), so display calls
are not tracked — except that rendering the compensated RA runs the
corrected-RA computation, whose internal assertion is propagated. -/

/-- Command constant `_CMD_BUTTON_1` (DISPLAY button). -/
def CMD_BUTTON_1 : Nat := 1

/-- Command constant `_CMD_BUTTON_2` (PROGRAM button, short press). -/
def CMD_BUTTON_2 : Nat := 2

/-- Command constant `_CMD_BUTTON_2_LONG` (PROGRAM button, long press). -/
def CMD_BUTTON_2_LONG : Nat := 22

/-- Command constant `_CMD_BUTTON_3` (DOWN button). -/
def CMD_BUTTON_3 : Nat := 3

/-- Command constant `_CMD_BUTTON_4` (UP button). -/
def CMD_BUTTON_4 : Nat := 4

/-- Command constant `_CMD_BUTTON_4_LONG` (UP button, long press: kill). -/
def CMD_BUTTON_4_LONG : Nat := 44

/-- Command constant `_CMD_TICK` (the 500 ms timer). -/
def CMD_TICK : Nat := 10

/-- State constant `StateMachine.S_IDLE`. -/
def S_IDLE : Nat := 0

/-- State constant `StateMachine.S_DISPLAY_RA`. -/
def S_DISPLAY_RA : Nat := 1

/-- State constant `StateMachine.S_DISPLAY_RA_TARGET`. -/
def S_DISPLAY_RA_TARGET : Nat := 2

/-- State constant `StateMachine.S_DISPLAY_CLOCK`. -/
def S_DISPLAY_CLOCK : Nat := 3

/-- State constant `StateMachine.S_DISPLAY_C_DATE`. -/
def S_DISPLAY_C_DATE : Nat := 4

/-- State constant `StateMachine.S_PROGRAM_RA_TARGET_H`. -/
def S_PROGRAM_RA_TARGET_H : Nat := 5

/-- State constant `StateMachine.S_PROGRAM_RA_TARGET_M`. -/
def S_PROGRAM_RA_TARGET_M : Nat := 6

/-- State constant `StateMachine.S_PROGRAM_CLOCK`. -/
def S_PROGRAM_CLOCK : Nat := 7

/-- State constant `StateMachine.S_PROGRAM_C_DAY`. -/
def S_PROGRAM_C_DAY : Nat := 8

/-- State constant `StateMachine.S_PROGRAM_C_MONTH`. -/
def S_PROGRAM_C_MONTH : Nat := 9

/-- Countdown constant `StateMachine.HOLD_TICKS` (8 ticks = 4 s). -/
def HOLD_TICKS : Nat := 8

/-- Python formatting `f'{n:02d}'` for a non-negative value: zero-pad to
width 2. -/
def fmt02 (n : Int) : String := if n < 10 then "0" ++ toString n else toString n

/-- Python formatting `f'{n:2d}'`: right-align in width 2 (space pad). -/
def fmt2 (n : Int) : String := if n < 10 then " " ++ toString n else toString n

/-- Python slicing `s[:n]` on the 4-character (ASCII) buffers. -/
def strTake (s : String) (n : Nat) : String := ⟨s.data.take n⟩

/-- Python slicing `s[n:]` on the 4-character (ASCII) buffers. -/
def strDrop (s : String) (n : Nat) : String := ⟨s.data.drop n⟩

/-- Digit accumulator behind `pyInt` (structural recursion, so that
concrete machines evaluate definitionally). -/
def parseDigitsAux : List Char → Nat → Option Nat
  | [], acc => some acc
  | c :: cs, acc =>
    if c.isDigit then parseDigitsAux cs (acc * 10 + (c.toNat - 48)) else none

/-- Python `int(s)` on the buffer substrings: surrounding whitespace is
ignored and a string that does not parse as a decimal raises (`none`).
The buffers only ever hold decimal digits with a possible leading pad
space (from `f'{n:2d}'`), never trailing spaces. -/
def pyInt (s : String) : Option Int :=
  match s.data.dropWhile (· == ' ') with
  | [] => none
  | cs => (parseDigitsAux cs 0).map fun n => (n : Int)

/-- Python truthiness of the `Optional[str]` edit buffer
(`assert self._programming_value` / `if not self._programming_value:`):
`None` and the empty string are falsy. -/
def truthyStr : Option String → Bool
  | none => false
  | some s => !(s == "")

/-! ### The per-state edit-buffer mutations of `_program_up` and
`_program_down`.  Each takes the 4-character buffer, parses the halves
(`int(value[:2])`, `int(value[2:])` or `_MONTH_NAME.index(value[2:])`),
mutates the active sub-field with its wraparound, and re-formats.
Arithmetic is on `Int`, as in Python, since decrements go below zero
before being tested. -/

/-- Buffer mutation for Up in `S_PROGRAM_CLOCK`. -/
def clock_buf_up (v : String) : Option String :=
  (pyInt (strTake v 2)).bind fun hour =>
  (pyInt (strDrop v 2)).bind fun minute =>
    let minute := minute + 1
    if minute > 59 then
      let minute := 0
      let hour := hour + 1
      let hour := if hour > 23 then 0 else hour
      some (fmt02 hour ++ fmt02 minute)
    else some (fmt02 hour ++ fmt02 minute)

/-- Buffer mutation for Up in `S_PROGRAM_RA_TARGET_H`. -/
def ra_h_buf_up (v : String) : Option String :=
  (pyInt (strTake v 2)).bind fun hour =>
  (pyInt (strDrop v 2)).bind fun minute =>
    let hour := hour + 1
    let hour := if hour > 23 then 0 else hour
    some (fmt02 hour ++ fmt02 minute)

/-- Buffer mutation for Up in `S_PROGRAM_RA_TARGET_M`. -/
def ra_m_buf_up (v : String) : Option String :=
  (pyInt (strTake v 2)).bind fun hour =>
  (pyInt (strDrop v 2)).bind fun minute =>
    let minute := minute + 1
    let minute := if minute > 59 then 0 else minute
    some (fmt02 hour ++ fmt02 minute)

/-- Buffer mutation for Up in `S_PROGRAM_C_MONTH`: wrap the month and
clamp the day to the new month's maximum (`day = min(_DAYS[month], day)`).
The `_MONTH_NAME.index` call raises on an unknown name (`none`), and the
`assert month >= 1` is the guard against the dummy entry. -/
def c_month_buf_up (v : String) : Option String :=
  (pyInt (strTake v 2)).bind fun day =>
  match MONTH_NAME.indexOf? (strDrop v 2) with
  | none => none
  | some month =>
    if month < 1 then none
    else
      let month := month + 1
      let month := if month > 12 then 1 else month
      let day := min (DAYS.getD month 0 : Int) day
      some (fmt2 day ++ MONTH_NAME.getD month "")

/-- Buffer mutation for Up in `S_PROGRAM_C_DAY`: wrap the day within the
current month's `_DAYS` maximum. -/
def c_day_buf_up (v : String) : Option String :=
  (pyInt (strTake v 2)).bind fun day =>
  match MONTH_NAME.indexOf? (strDrop v 2) with
  | none => none
  | some month =>
    let day := day + 1
    let day := if day > (DAYS.getD month 0 : Int) then 1 else day
    some (fmt2 day ++ MONTH_NAME.getD month "")

/-- Buffer mutation for Down in `S_PROGRAM_CLOCK`. -/
def clock_buf_down (v : String) : Option String :=
  (pyInt (strTake v 2)).bind fun hour =>
  (pyInt (strDrop v 2)).bind fun minute =>
    let minute := minute - 1
    if minute < 0 then
      let minute := 59
      let hour := hour - 1
      let hour := if hour < 0 then 23 else hour
      some (fmt02 hour ++ fmt02 minute)
    else some (fmt02 hour ++ fmt02 minute)

/-- Buffer mutation for Down in `S_PROGRAM_RA_TARGET_H`.  The source
formats the hour with `f'{hour:2d}'` here (space pad, not zero pad). -/
def ra_h_buf_down (v : String) : Option String :=
  (pyInt (strTake v 2)).bind fun hour =>
  (pyInt (strDrop v 2)).bind fun minute =>
    let hour := hour - 1
    let hour := if hour < 0 then 23 else hour
    some (fmt2 hour ++ fmt02 minute)

/-- Buffer mutation for Down in `S_PROGRAM_RA_TARGET_M`. -/
def ra_m_buf_down (v : String) : Option String :=
  (pyInt (strTake v 2)).bind fun hour =>
  (pyInt (strDrop v 2)).bind fun minute =>
    let minute := minute - 1
    let minute := if minute < 0 then 59 else minute
    some (fmt02 hour ++ fmt02 minute)

/-- Buffer mutation for Down in `S_PROGRAM_C_MONTH`. -/
def c_month_buf_down (v : String) : Option String :=
  (pyInt (strTake v 2)).bind fun day =>
  match MONTH_NAME.indexOf? (strDrop v 2) with
  | none => none
  | some month =>
    if month < 1 then none
    else
      let month := month - 1
      let month := if month < 1 then 12 else month
      let day := min (DAYS.getD month 0 : Int) day
      some (fmt2 day ++ MONTH_NAME.getD month "")

/-- Buffer mutation for Down in `S_PROGRAM_C_DAY`. -/
def c_day_buf_down (v : String) : Option String :=
  (pyInt (strTake v 2)).bind fun day =>
  match MONTH_NAME.indexOf? (strDrop v 2) with
  | none => none
  | some month =>
    let day := day - 1
    let day := if day < 1 then (DAYS.getD month 0 : Int) else day
    some (fmt2 day ++ MONTH_NAME.getD month "")

/-- The `StateMachine` object's fields.  `rtc` holds the clock
collaborator's current value; `timer` whether the 500 ms timer object
exists. -/
structure StateMachine where
  state : Nat
  to_idle_countdown : Nat
  brightness : Nat
  ra_target : RA
  calibration_date : CalibrationDate
  ra_fram : RaFRAM
  rtc : RealTimeClock
  timer : Bool
  programming : Bool
  programming_left : Bool
  programming_right : Bool
  programming_state : Nat
  programming_left_on : Bool
  programming_right_on : Bool
  programming_value : Option String

/-- Method `_clear_program_mode`. -/
def StateMachine.clear_program_mode (sm : StateMachine) : StateMachine :=
  { sm with programming := false, programming_value := none }

/-- Method `_start_timer(to_idle)`. -/
def StateMachine.start_timer (sm : StateMachine) (to_idle : Bool) :
    StateMachine :=
  let sm := { sm with timer := true }
  if to_idle then { sm with to_idle_countdown := HOLD_TICKS } else sm

/-- Method `_stop_timer`. -/
def StateMachine.stop_timer (sm : StateMachine) : StateMachine :=
  { sm with timer := false, to_idle_countdown := 0 }

/-- Method `_program_up`: mutate the edit buffer according to the
current state (the source has a duplicated, unreachable `elif` for
`S_PROGRAM_RA_TARGET_M`, which changes nothing). -/
def StateMachine.program_up (sm : StateMachine) : Option StateMachine :=
  match sm.programming_value with
  | none => none
  | some v =>
    if v == "" then none
    else if sm.state = S_PROGRAM_CLOCK then
      (clock_buf_up v).map fun w => { sm with programming_value := some w }
    else if sm.state = S_PROGRAM_RA_TARGET_H then
      (ra_h_buf_up v).map fun w => { sm with programming_value := some w }
    else if sm.state = S_PROGRAM_RA_TARGET_M then
      (ra_m_buf_up v).map fun w => { sm with programming_value := some w }
    else if sm.state = S_PROGRAM_C_MONTH then
      (c_month_buf_up v).map fun w => { sm with programming_value := some w }
    else if sm.state = S_PROGRAM_C_DAY then
      (c_day_buf_up v).map fun w => { sm with programming_value := some w }
    else some sm

/-- Method `_program_down`. -/
def StateMachine.program_down (sm : StateMachine) : Option StateMachine :=
  match sm.programming_value with
  | none => none
  | some v =>
    if v == "" then none
    else if sm.state = S_PROGRAM_CLOCK then
      (clock_buf_down v).map fun w => { sm with programming_value := some w }
    else if sm.state = S_PROGRAM_RA_TARGET_H then
      (ra_h_buf_down v).map fun w => { sm with programming_value := some w }
    else if sm.state = S_PROGRAM_RA_TARGET_M then
      (ra_m_buf_down v).map fun w => { sm with programming_value := some w }
    else if sm.state = S_PROGRAM_C_MONTH then
      (c_month_buf_down v).map fun w => { sm with programming_value := some w }
    else if sm.state = S_PROGRAM_C_DAY then
      (c_day_buf_down v).map fun w => { sm with programming_value := some w }
    else some sm

/-- Entry method `_to_idle`. -/
def StateMachine.to_idle (sm : StateMachine) : Option (Bool × StateMachine) :=
  let sm := sm.clear_program_mode
  let sm := { sm with state := S_IDLE }
  -- display.clear()
  let sm := sm.stop_timer
  some (true, sm)

/-- Entry method `_to_display_ra`: renders the compensated RA, which
runs the corrected-RA computation (its internal assertion propagates). -/
def StateMachine.to_display_ra (sm : StateMachine) :
    Option (Bool × StateMachine) :=
  let sm := sm.clear_program_mode
  let sm := { sm with state := S_DISPLAY_RA }
  let sm := sm.start_timer true
  match corrected_ra sm.ra_target sm.calibration_date sm.rtc with
  | none => none
  | some _ => some (true, sm)

/-- Entry method `_to_display_ra_target`. -/
def StateMachine.to_display_ra_target (sm : StateMachine) :
    Option (Bool × StateMachine) :=
  let sm := sm.clear_program_mode
  let sm := { sm with state := S_DISPLAY_RA_TARGET }
  let sm := sm.start_timer true
  -- display.show_ra_target(...)
  some (true, sm)

/-- Entry method `_to_display_clock`. -/
def StateMachine.to_display_clock (sm : StateMachine) :
    Option (Bool × StateMachine) :=
  let sm := sm.clear_program_mode
  let sm := { sm with state := S_DISPLAY_CLOCK }
  let sm := sm.start_timer true
  -- display.show_time()
  some (true, sm)

/-- Entry method `_to_display_calibration_date`. -/
def StateMachine.to_display_calibration_date (sm : StateMachine) :
    Option (Bool × StateMachine) :=
  let sm := sm.clear_program_mode
  let sm := { sm with state := S_DISPLAY_C_DATE }
  let sm := sm.start_timer true
  -- display.show_calibration_date(...)
  some (true, sm)

/-- Entry method `_to_program_ra_target_h`: the edit buffer is seeded
from the stored RA target only when it is empty (`if not
self._programming_value:`). -/
def StateMachine.to_program_ra_target_h (sm : StateMachine) :
    Option (Bool × StateMachine) :=
  let sm := { sm with state := S_PROGRAM_RA_TARGET_H,
                      to_idle_countdown := 0,
                      programming := true,
                      programming_left := true,
                      programming_right := false,
                      programming_left_on := true,
                      programming_right_on := true,
                      programming_state := S_DISPLAY_RA_TARGET }
  let sm := sm.start_timer false
  if truthyStr sm.programming_value then some (true, sm)
  else
    let rt := sm.ra_fram.read_ra_target
    let pv := fmt02 (rt.1.h : Int) ++ fmt02 (rt.1.m : Int)
    let sm := { sm with ra_fram := rt.2, programming_value := some pv }
    some (true, sm)

/-- Entry method `_to_program_ra_target_m`: only the state and the
flash-selection flags change. -/
def StateMachine.to_program_ra_target_m (sm : StateMachine) :
    Option (Bool × StateMachine) :=
  some (true, { sm with state := S_PROGRAM_RA_TARGET_M,
                        programming_left := false,
                        programming_right := true })

/-- Entry method `_to_program_clock`: the buffer is always re-seeded
from the clock collaborator. -/
def StateMachine.to_program_clock (sm : StateMachine) :
    Option (Bool × StateMachine) :=
  let sm := { sm with state := S_PROGRAM_CLOCK,
                      to_idle_countdown := 0,
                      programming := true,
                      programming_left := true,
                      programming_right := true,
                      programming_left_on := true,
                      programming_right_on := true,
                      programming_state := S_DISPLAY_CLOCK }
  let sm := sm.start_timer false
  let pv := fmt02 (sm.rtc.h : Int) ++ fmt02 (sm.rtc.m : Int)
  let sm := { sm with programming_value := some pv }
  some (true, sm)

/-- Entry method `_to_program_calibration_day`: seeded from the stored
calibration date only when the buffer is empty. -/
def StateMachine.to_program_calibration_day (sm : StateMachine) :
    Option (Bool × StateMachine) :=
  let sm := { sm with state := S_PROGRAM_C_DAY,
                      to_idle_countdown := 0,
                      programming := true,
                      programming_left := true,
                      programming_right := false,
                      programming_left_on := true,
                      programming_right_on := true,
                      programming_state := S_DISPLAY_C_DATE }
  let sm := sm.start_timer false
  if truthyStr sm.programming_value then some (true, sm)
  else
    let cd := sm.ra_fram.read_calibration_date
    let pv := fmt2 (cd.1.d : Int) ++ MONTH_NAME.getD cd.1.m ""
    let sm := { sm with ra_fram := cd.2, programming_value := some pv }
    some (true, sm)

/-- Entry method `_to_program_calibration_month`: only the state and the
flash-selection flags change. -/
def StateMachine.to_program_calibration_month (sm : StateMachine) :
    Option (Bool × StateMachine) :=
  some (true, { sm with state := S_PROGRAM_C_MONTH,
                        programming_left := false,
                        programming_right := true })

/-- Method `process_command`: `some (continue?, machine')`, or `none`
when the Python code raises (the driver loop then logs the exception and
terminates).  The result `some (false, _)` is the explicit kill path. -/
def StateMachine.process_command (sm : StateMachine) (command : Nat) :
    Option (Bool × StateMachine) :=
  if command = CMD_BUTTON_4_LONG then some (false, sm)
  else if command = CMD_TICK then
    if sm.state = S_IDLE then some (true, sm)
    else if sm.to_idle_countdown ≠ 0 then
      let sm := { sm with to_idle_countdown := sm.to_idle_countdown - 1 }
      if sm.to_idle_countdown = 0 then sm.to_idle
      else some (true, sm)
    else if sm.programming then
      match sm.programming_value with
      | none => none
      | some v =>
        if v == "" then none
        else
          -- display.show(v); toggle the visibility of the active halves
          let sm := if sm.programming_left then
              (if sm.programming_left_on then
                { sm with programming_left_on := false }
              else { sm with programming_left_on := true })
            else sm
          let sm := if sm.programming_right then
              (if sm.programming_right_on then
                { sm with programming_right_on := false }
              else { sm with programming_right_on := true })
            else sm
          some (true, sm)
    else some (true, sm)
  else if command = CMD_BUTTON_1 then
    if sm.state = S_IDLE then sm.to_display_ra
    else if sm.state = S_DISPLAY_RA then sm.to_display_ra_target
    else if sm.state = S_DISPLAY_RA_TARGET then sm.to_display_clock
    else if sm.state = S_DISPLAY_CLOCK then sm.to_display_calibration_date
    else if sm.state = S_DISPLAY_C_DATE then sm.to_display_ra
    else if sm.programming then
      let sm := { sm with programming := false }
      if sm.programming_state = S_DISPLAY_RA_TARGET then
        sm.to_display_ra_target
      else if sm.programming_state = S_DISPLAY_CLOCK then sm.to_display_clock
      else if sm.programming_state = S_DISPLAY_C_DATE then
        sm.to_display_calibration_date
      else some (true, sm)
    else some (true, sm)
  else if command = CMD_BUTTON_2 then
    if sm.state = S_DISPLAY_RA_TARGET then sm.to_program_ra_target_h
    else if sm.state = S_DISPLAY_CLOCK then sm.to_program_clock
    else if sm.state = S_DISPLAY_C_DATE then sm.to_program_calibration_day
    else if sm.state = S_PROGRAM_RA_TARGET_H then sm.to_program_ra_target_m
    else if sm.state = S_PROGRAM_RA_TARGET_M then sm.to_program_ra_target_h
    else if sm.state = S_PROGRAM_C_DAY then sm.to_program_calibration_month
    else if sm.state = S_PROGRAM_C_MONTH then sm.to_program_calibration_day
    else some (true, sm)
  else if command = CMD_BUTTON_2_LONG then
    if sm.programming then
      match sm.programming_value with
      | none => none
      | some v =>
        if v == "" then none
        else if sm.state = S_PROGRAM_RA_TARGET_H ∨
            sm.state = S_PROGRAM_RA_TARGET_M then
          match pyInt (strTake v 2), pyInt (strDrop v 2) with
          | some ra_h, some ra_m =>
            let ra : RA := ⟨ra_h.toNat, ra_m.toNat⟩
            let fr := sm.ra_fram.write_ra_target ra
            let sm := { sm with ra_target := ra, ra_fram := fr }
            sm.to_display_ra
          | _, _ => none
        else if sm.state = S_PROGRAM_CLOCK then
          -- After parsing the buffer the source executes `rtc.h = hour`
          -- on the namedtuple returned by the clock collaborator;
          -- namedtuple fields are read-only, so this raises
          -- AttributeError and the commit never completes.
          match pyInt (strTake v 2), pyInt (strDrop v 2) with
          | some _, some _ => none
          | _, _ => none
        else if sm.state = S_PROGRAM_C_MONTH ∨
            sm.state = S_PROGRAM_C_DAY then
          (pyInt (strTake v 2)).bind fun day =>
          match MONTH_NAME.indexOf? (strDrop v 2) with
          | none => none
          | some month =>
            if month < 1 then none
            else
              let c : CalibrationDate := ⟨day.toNat, month⟩
              let fr := sm.ra_fram.write_calibration_date c
              let sm := { sm with calibration_date := c, ra_fram := fr }
              sm.to_display_calibration_date
        else some (true, sm)
    else some (true, sm)
  else if command = CMD_BUTTON_3 then
    if sm.state ≠ S_IDLE then
      if sm.programming then
        (sm.program_down).map fun sm' => (true, sm')
      else
        let sm := { sm with to_idle_countdown := HOLD_TICKS }
        if sm.brightness > MIN_BRIGHTNESS then
          let b := sm.brightness - 1
          let fr := sm.ra_fram.write_brightness b
          some (true, { sm with brightness := b, ra_fram := fr })
        else some (true, sm)
    else some (true, sm)
  else if command = CMD_BUTTON_4 then
    if sm.state ≠ S_IDLE then
      if sm.programming then
        (sm.program_up).map fun sm' => (true, sm')
      else
        let sm := { sm with to_idle_countdown := HOLD_TICKS }
        if sm.brightness < MAX_BRIGHTNESS then
          let b := sm.brightness + 1
          let fr := sm.ra_fram.write_brightness b
          some (true, { sm with brightness := b, ra_fram := fr })
        else some (true, sm)
    else some (true, sm)
  else some (false, sm)

/-- Iterated processing of Tick commands with no other input, as long as
the machine keeps answering `some (true, _)`. -/
def run_ticks : Nat → StateMachine → Option (Bool × StateMachine)
  | 0, sm => some (true, sm)
  | n + 1, sm =>
    match sm.process_command CMD_TICK with
    | some (true, sm') => run_ticks n sm'
    | r => r

/-- A machine sitting in the clock-edit state with a well-formed edit
buffer ("12:34"), as reached by DisplayClock → ProgramEnter. -/
def clockEditSM : StateMachine :=
  { state := S_PROGRAM_CLOCK, to_idle_countdown := 0, brightness := 1,
    ra_target := ⟨5, 16⟩, calibration_date := ⟨3, 1⟩,
    ra_fram := initialRaFRAM, rtc := ⟨2022, 2, 7, 1, 12, 34, 25⟩,
    timer := true, programming := true, programming_left := true,
    programming_right := true, programming_state := S_DISPLAY_CLOCK,
    programming_left_on := true, programming_right_on := true,
    programming_value := some "1234" }

/-- C3: a ProgramCommit (long press) in the clock-edit state does not
set the clock and reach DisplayClock — it raises: after parsing the
buffer the source assigns `rtc.h = hour` on the namedtuple returned by
the clock collaborator, whose fields are read-only (AttributeError), so
command processing fails and the driver loop terminates the machine. -/
theorem clock_commit_raises :
    clockEditSM.process_command CMD_BUTTON_2_LONG = none := by
  rfl

/-- C10: while editing the RA target or the calibration date, the
program button toggles the active sub-field: the machine changes only
its state and the programming/flash-selection bookkeeping, so the edit
buffer (and the config store) is untouched and in-progress edits are
never lost by switching sub-fields. -/
theorem subfield_toggle_preserves_buffer (sm : StateMachine) (v : String)
    (hval : sm.programming_value = some v) (hne : v ≠ "") :
    (sm.state = S_PROGRAM_RA_TARGET_H →
      sm.process_command CMD_BUTTON_2 =
        some (true, { sm with state := S_PROGRAM_RA_TARGET_M,
                              programming_left := false,
                              programming_right := true })) ∧
    (sm.state = S_PROGRAM_RA_TARGET_M →
      sm.process_command CMD_BUTTON_2 =
        some (true, { sm with state := S_PROGRAM_RA_TARGET_H,
                              to_idle_countdown := 0,
                              programming := true,
                              programming_left := true,
                              programming_right := false,
                              programming_left_on := true,
                              programming_right_on := true,
                              programming_state := S_DISPLAY_RA_TARGET,
                              timer := true })) ∧
    (sm.state = S_PROGRAM_C_DAY →
      sm.process_command CMD_BUTTON_2 =
        some (true, { sm with state := S_PROGRAM_C_MONTH,
                              programming_left := false,
                              programming_right := true })) ∧
    (sm.state = S_PROGRAM_C_MONTH →
      sm.process_command CMD_BUTTON_2 =
        some (true, { sm with state := S_PROGRAM_C_DAY,
                              to_idle_countdown := 0,
                              programming := true,
                              programming_left := true,
                              programming_right := false,
                              programming_left_on := true,
                              programming_right_on := true,
                              programming_state := S_DISPLAY_C_DATE,
                              timer := true })) := by
  refine ⟨?_, ?_, ?_, ?_⟩ <;> intro hstate <;>
    simp [StateMachine.process_command, CMD_BUTTON_2, CMD_BUTTON_4_LONG,
      CMD_TICK, CMD_BUTTON_1, hstate, S_IDLE, S_DISPLAY_RA,
      S_DISPLAY_RA_TARGET, S_DISPLAY_CLOCK, S_DISPLAY_C_DATE,
      S_PROGRAM_RA_TARGET_H, S_PROGRAM_RA_TARGET_M, S_PROGRAM_CLOCK,
      S_PROGRAM_C_DAY, S_PROGRAM_C_MONTH,
      StateMachine.to_program_ra_target_m,
      StateMachine.to_program_ra_target_h,
      StateMachine.to_program_calibration_month,
      StateMachine.to_program_calibration_day,
      StateMachine.start_timer, truthyStr, hval, hne]

/-- A machine editing the RA-target hour with buffer "0516". -/
def raHourEditSM : StateMachine :=
  { clockEditSM with
      state := S_PROGRAM_RA_TARGET_H,
      programming_state := S_DISPLAY_RA_TARGET,
      programming_right := false,
      programming_value := some "0516" }

/-- Witness for C10: the machine editing the RA-target hour with buffer
"0516" toggles to minute editing with the buffer intact. -/
theorem subfield_toggle_preserves_buffer_witness :
    raHourEditSM.process_command CMD_BUTTON_2 =
      some (true, { raHourEditSM with
                      state := S_PROGRAM_RA_TARGET_M,
                      programming_left := false,
                      programming_right := true }) :=
  ((subfield_toggle_preserves_buffer raHourEditSM "0516" rfl (by decide)).1) rfl

/-- A Tick outside Idle with a countdown of at least 2 only decrements
the countdown. -/
theorem tick_decrement (sm : StateMachine) (h0 : sm.state ≠ S_IDLE)
    (hge : 2 ≤ sm.to_idle_countdown) :
    sm.process_command CMD_TICK =
      some (true,
        { sm with to_idle_countdown := sm.to_idle_countdown - 1 }) := by
  have hne : sm.to_idle_countdown ≠ 0 := by omega
  have hne1 : ¬(sm.to_idle_countdown - 1 = 0) := by omega
  simp [StateMachine.process_command, CMD_TICK, CMD_BUTTON_4_LONG, h0, hne,
    hne1]

/-- A Tick outside Idle with a countdown of exactly 1 enters Idle:
programming cleared, state Idle, timer stopped. -/
theorem tick_to_idle (sm : StateMachine) (h0 : sm.state ≠ S_IDLE)
    (h1 : sm.to_idle_countdown = 1) :
    sm.process_command CMD_TICK =
      some (true, { sm with programming := false, programming_value := none,
                            state := S_IDLE, timer := false,
                            to_idle_countdown := 0 }) := by
  simp [StateMachine.process_command, CMD_TICK, CMD_BUTTON_4_LONG, h0, h1,
    StateMachine.to_idle, StateMachine.clear_program_mode,
    StateMachine.stop_timer]

/-- Outside Idle, a countdown of `c ≥ 1` reaches Idle after exactly `c`
consecutive Ticks. -/
theorem run_ticks_to_idle (c : Nat) : ∀ sm : StateMachine,
    sm.state ≠ S_IDLE → sm.to_idle_countdown = c → 1 ≤ c →
    run_ticks c sm =
      some (true, { sm with programming := false, programming_value := none,
                            state := S_IDLE, timer := false,
                            to_idle_countdown := 0 }) := by
  induction c with
  | zero => intro sm h0 hc h1; omega
  | succ k ih =>
    intro sm h0 hc h1
    by_cases hk : k = 0
    · subst hk
      simp [run_ticks, tick_to_idle sm h0 hc]
    · have hge : 2 ≤ sm.to_idle_countdown := by omega
      have hdec := tick_decrement sm h0 hge
      simp only [run_ticks, hdec]
      have hrest := ih
        { sm with to_idle_countdown := sm.to_idle_countdown - 1 }
        (by simpa using h0) (by simp; omega) (by omega)
      simpa using hrest

/-- C9: from any non-editing display state, the idle countdown drives
the machine to Idle: with the countdown at its entry value of
`HOLD_TICKS = 8`, 8 consecutive Ticks end in Idle; each Tick decrements
the countdown while it is above 1; an Up or Down while not editing is
accepted and resets the countdown to 8 without changing the state; and a
Tick received in Idle changes nothing. -/
theorem idle_countdown_behaviour (sm : StateMachine)
    (hdisp : sm.state = S_DISPLAY_RA ∨ sm.state = S_DISPLAY_RA_TARGET ∨
      sm.state = S_DISPLAY_CLOCK ∨ sm.state = S_DISPLAY_C_DATE) :
    (sm.to_idle_countdown = HOLD_TICKS →
      ∃ sm', run_ticks 8 sm = some (true, sm') ∧ sm'.state = S_IDLE) ∧
    (2 ≤ sm.to_idle_countdown →
      sm.process_command CMD_TICK =
        some (true,
          { sm with to_idle_countdown := sm.to_idle_countdown - 1 })) ∧
    (sm.programming = false →
      ∀ cmd, cmd = CMD_BUTTON_3 ∨ cmd = CMD_BUTTON_4 →
      ∃ sm', sm.process_command cmd = some (true, sm') ∧
        sm'.state = sm.state ∧ sm'.to_idle_countdown = HOLD_TICKS) ∧
    (∀ smi : StateMachine, smi.state = S_IDLE →
      smi.process_command CMD_TICK = some (true, smi)) := by
  have h0 : sm.state ≠ S_IDLE := by
    rcases hdisp with h | h | h | h <;> rw [h] <;> decide
  refine ⟨?_, fun hge => tick_decrement sm h0 hge, ?_, ?_⟩
  · intro hcd
    refine ⟨_, run_ticks_to_idle 8 sm h0 hcd (by omega), rfl⟩
  · intro hprog cmd hcmd
    rcases hcmd with rfl | rfl <;>
      simp [StateMachine.process_command, CMD_BUTTON_3, CMD_BUTTON_4,
        CMD_BUTTON_4_LONG, CMD_TICK, CMD_BUTTON_1, CMD_BUTTON_2,
        CMD_BUTTON_2_LONG, h0, hprog] <;>
      split <;>
      exact ⟨_, rfl, rfl, rfl⟩
  · intro smi hidle
    simp [StateMachine.process_command, CMD_TICK, CMD_BUTTON_4_LONG, hidle]

/-- A machine freshly arrived in the DisplayRa state (countdown 8). -/
def displayRaSM : StateMachine :=
  { clockEditSM with
      state := S_DISPLAY_RA,
      to_idle_countdown := 8,
      programming := false,
      programming_left := false,
      programming_right := false,
      programming_state := S_IDLE,
      programming_value := none }

/-- Witness for C9: 8 Ticks from the DisplayRa machine reach Idle. -/
theorem idle_countdown_behaviour_witness :
    (displayRaSM.state = S_DISPLAY_RA ∨
      displayRaSM.state = S_DISPLAY_RA_TARGET ∨
      displayRaSM.state = S_DISPLAY_CLOCK ∨
      displayRaSM.state = S_DISPLAY_C_DATE) ∧
    displayRaSM.to_idle_countdown = HOLD_TICKS ∧
    ∃ sm', run_ticks 8 displayRaSM = some (true, sm') ∧
      sm'.state = S_IDLE :=
  ⟨Or.inl rfl, rfl, (idle_countdown_behaviour displayRaSM (Or.inl rfl)).1 rfl⟩

/-- The calibration-date edit buffer as formatted by the source:
`f'{day:2d}'` followed by the month's two-letter name. -/
def calBuf (d m : Nat) : String := fmt2 (d : Int) ++ MONTH_NAME.getD m ""

/-- Shorthand for a machine with only its edit buffer replaced. -/
def withBuf (sm : StateMachine) (w : String) : StateMachine :=
  { sm with programming_value := some w }

theorem days_le_31 : ∀ m, m ≤ 12 → DAYS.getD m 0 ≤ 31 := by decide

theorem calBuf_ne_empty : ∀ m, m ≤ 12 → ∀ d, d ≤ 31 →
    (calBuf d m == "") = false := by decide

/-- Up on the calibration-day buffer wraps the day within
1..`_DAYS[month]`, leaving the month alone. -/
theorem c_day_buf_up_spec : ∀ m, m ≤ 12 → ∀ d, d ≤ 31 →
    1 ≤ m ∧ 1 ≤ d ∧ d ≤ DAYS.getD m 0 →
    c_day_buf_up (calBuf d m) =
      some (calBuf (if d + 1 > DAYS.getD m 0 then 1 else d + 1) m) := by
  decide

/-- Down on the calibration-day buffer wraps to `_DAYS[month]` below 1. -/
theorem c_day_buf_down_spec : ∀ m, m ≤ 12 → ∀ d, d ≤ 31 →
    1 ≤ m ∧ 1 ≤ d ∧ d ≤ DAYS.getD m 0 →
    c_day_buf_down (calBuf d m) =
      some (calBuf (if d - 1 < 1 then DAYS.getD m 0 else d - 1) m) := by
  decide

/-- Up on the calibration-month buffer wraps the month within 1..12 and
clamps the day to the new month's maximum. -/
theorem c_month_buf_up_spec : ∀ m, m ≤ 12 → ∀ d, d ≤ 31 →
    1 ≤ m ∧ 1 ≤ d ∧ d ≤ DAYS.getD m 0 →
    c_month_buf_up (calBuf d m) =
      some (calBuf (min (DAYS.getD (if m + 1 > 12 then 1 else m + 1) 0) d)
        (if m + 1 > 12 then 1 else m + 1)) := by
  decide

/-- Down on the calibration-month buffer wraps the month within 1..12
and clamps the day to the new month's maximum. -/
theorem c_month_buf_down_spec : ∀ m, m ≤ 12 → ∀ d, d ≤ 31 →
    1 ≤ m ∧ 1 ≤ d ∧ d ≤ DAYS.getD m 0 →
    c_month_buf_down (calBuf d m) =
      some (calBuf (min (DAYS.getD (if m - 1 < 1 then 12 else m - 1) 0) d)
        (if m - 1 < 1 then 12 else m - 1)) := by
  decide

/-- C8: while editing the calibration date with a valid buffer, Up/Down
on the day sub-field wraps the day within 1..(days in the selected
month, February fixed at 28), and Up/Down on the month sub-field wraps
the month within 1..12 and clamps the day down to the new month's
maximum; only the edit buffer changes. -/
theorem calibration_edit_wraps (sm : StateMachine) (d m : Nat)
    (hd1 : 1 ≤ d) (hdmax : d ≤ DAYS.getD m 0) (hm1 : 1 ≤ m) (hm12 : m ≤ 12)
    (hval : sm.programming_value = some (calBuf d m)) :
    (sm.state = S_PROGRAM_C_DAY →
      sm.program_up =
        some (withBuf sm (calBuf (if d + 1 > DAYS.getD m 0 then 1 else d + 1) m)) ∧
      sm.program_down =
        some (withBuf sm (calBuf (if d - 1 < 1 then DAYS.getD m 0 else d - 1) m))) ∧
    (sm.state = S_PROGRAM_C_MONTH →
      sm.program_up =
        some (withBuf sm (calBuf
          (min (DAYS.getD (if m + 1 > 12 then 1 else m + 1) 0) d)
          (if m + 1 > 12 then 1 else m + 1))) ∧
      sm.program_down =
        some (withBuf sm (calBuf
          (min (DAYS.getD (if m - 1 < 1 then 12 else m - 1) 0) d)
          (if m - 1 < 1 then 12 else m - 1)))) := by
  have h31 : d ≤ 31 := Nat.le_trans hdmax (days_le_31 m hm12)
  have hnem := calBuf_ne_empty m hm12 d h31
  constructor <;> intro hstate <;> constructor <;>
    simp [StateMachine.program_up, StateMachine.program_down, hval, hstate,
      hnem, S_PROGRAM_CLOCK, S_PROGRAM_RA_TARGET_H, S_PROGRAM_RA_TARGET_M,
      S_PROGRAM_C_MONTH, S_PROGRAM_C_DAY, withBuf,
      c_day_buf_up_spec m hm12 d h31 ⟨hm1, hd1, hdmax⟩,
      c_day_buf_down_spec m hm12 d h31 ⟨hm1, hd1, hdmax⟩,
      c_month_buf_up_spec m hm12 d h31 ⟨hm1, hd1, hdmax⟩,
      c_month_buf_down_spec m hm12 d h31 ⟨hm1, hd1, hdmax⟩]

/-- A machine editing the calibration day with buffer "28Fe". -/
def calDayEditSM : StateMachine :=
  { clockEditSM with
      state := S_PROGRAM_C_DAY,
      programming_state := S_DISPLAY_C_DATE,
      programming_right := false,
      programming_value := some (calBuf 28 2) }

/-- Witness for C8: from Feb 28, Up wraps the day to 1 and Down moves it
to 27; in the month sub-field Up moves Feb to March keeping day 28. -/
theorem calibration_edit_wraps_witness :
    calDayEditSM.program_up = some (withBuf calDayEditSM (calBuf 1 2)) ∧
    calDayEditSM.program_down = some (withBuf calDayEditSM (calBuf 27 2)) := by
  have h := (calibration_edit_wraps calDayEditSM 28 2 (by decide) (by decide)
    (by decide) (by decide) rfl).1 rfl
  exact ⟨by simpa using h.1, by simpa using h.2⟩

end RaCalc
